import Mathlib

/-!
# Verification of the niconico login crate

Shallow embedding of `src/lib.rs` of the `toof-jp/niconico` crate.

The crate has two functions:

* `parse_response_header` scans the repeated `Set-Cookie` values of an HTTP
  response header map, decodes each value as text and returns the first value
  whose text starts with the literal `user_session=user_session_`.
* `login` builds a reqwest client (redirects disabled, fixed User-Agent),
  POSTs the form-encoded credentials to the fixed login URL and hands the
  response headers to `parse_response_header`.

Header values are modelled as byte lists (`List Nat`); the http crate's
`HeaderValue::to_str` succeeds exactly when every byte is visible ASCII or a
tab, which `toStr` mirrors.  The header map is an ordered list of
(name, value-bytes) entries; `get_all` collects, in order, the values whose
name matches case-insensitively, matching the http crate's `HeaderMap`
semantics (names are stored lowercased).  The network and client-construction
effects of `login` are modelled by an explicit `Transport` record supplied by
the environment.
-/

namespace Niconico

/-- A raw header value: a sequence of bytes, as in `http::HeaderValue`. -/
abbrev HeaderBytes := List Nat

/-- `http::HeaderValue::to_str` accepts a byte iff it is visible ASCII or a
tab (`b >= 32 && b < 127 || b == 9`). -/
def visibleAscii (b : Nat) : Bool :=
  (32 ≤ b && b < 127) || b == 9

/-- `HeaderValue::to_str`: yields the text of the value when every byte is
visible ASCII (or tab), and fails otherwise.  All accepted bytes are ASCII,
so the byte-to-char map is the identity embedding. -/
def toStr (v : HeaderBytes) : Option String :=
  if v.all visibleAscii then
    some (String.mk (v.map Char.ofNat))
  else
    none

/-- Bytes of an ASCII string, for building concrete header values. -/
def strBytes (s : String) : HeaderBytes :=
  s.data.map Char.toNat

/-- ASCII lower-casing of a single character (header names are
case-insensitive). -/
def lowerChar (c : Char) : Char :=
  if 'A' ≤ c ∧ c ≤ 'Z' then Char.ofNat (c.toNat + 32) else c

/-- ASCII lower-casing of a header name. -/
def lowerStr (s : String) : String :=
  String.mk (s.data.map lowerChar)

/-- The response header collection: an ordered multi-map from header name to
raw values, as in `http::HeaderMap` (a name may repeat). -/
structure HeaderMap where
  entries : List (String × HeaderBytes)
deriving DecidableEq

/-- `HeaderMap::get_all(name)`: all values stored under `name`
(case-insensitively), in the order they appear in the collection. -/
def HeaderMap.get_all (h : HeaderMap) (name : String) : List HeaderBytes :=
  (h.entries.filter (fun e => lowerStr e.1 == lowerStr name)).map (fun e => e.2)

/-- The header name the scanner reads, `reqwest::header::SET_COOKIE`. -/
def setCookieName : String := "set-cookie"

/-- `str::find(pat)` on a character list: the index of the first occurrence
of `pat`, or `none`.  (Rust reports a byte index; the scanner only compares
the result with `Some(0)`, and "occurs at index 0" agrees between bytes and
characters — and the decoded text is pure ASCII anyway.) -/
def strFindAux (pat : List Char) : List Char → Option Nat
  | [] => if pat.isPrefixOf ([] : List Char) then some 0 else none
  | c :: t =>
    if pat.isPrefixOf (c :: t) then some 0
    else (strFindAux pat t).map (fun n => n + 1)

/-- `hay.find(pat)` on strings. -/
def strFind (hay pat : String) : Option Nat :=
  strFindAux pat.data hay.data

/-- The literal `"user_session=user_session_"` the scanner looks for. -/
def userSessionMarker : String := "user_session=user_session_"

/-- `UserSession`: the successful login result, carrying the session token
(the full text of the matching `Set-Cookie` value). -/
structure UserSession where
  user_session : String
deriving DecidableEq

/-- `LoginError`: the error taxonomy of the crate. -/
inductive LoginError where
  /-- Error while creating the HTTP client. -/
  | ClientError (msg : String)
  /-- A header value could not be decoded as text (`ToStrError`). -/
  | HeaderParseError
  /-- No `Set-Cookie` value carried the user session. -/
  | UserSessionNotFound
  /-- The request failed at the transport layer. -/
  | NetworkError (msg : String)
deriving DecidableEq

deriving instance DecidableEq for Except

/-- `LoginResult = Result<UserSession, LoginError>`. -/
abbrev LoginResult := Except LoginError UserSession

/-- The loop body of `parse_response_header` over the `Set-Cookie` values:
decode each value (`to_str()?`, aborting with `HeaderParseError` on failure),
return `Ok` at the first text whose `find` of the marker is `Some(0)`, and
`Err(UserSessionNotFound)` when the values run out. -/
def scanSetCookie : List HeaderBytes → LoginResult
  | [] => .error .UserSessionNotFound
  | v :: rest =>
    match toStr v with
    | none => .error .HeaderParseError
    | some cookie_str =>
      if strFind cookie_str userSessionMarker = some 0 then
        .ok ⟨cookie_str⟩
      else
        scanSetCookie rest

/-- `parse_response_header`: scan all `Set-Cookie` values of the response
headers for the user session cookie. -/
def parse_response_header (response_header : HeaderMap) : LoginResult :=
  scanSetCookie (response_header.get_all setCookieName)

/-- `Credentials`: the login inputs (the password is a `SecretString` in the
source; its text is what the form serializer exposes). -/
structure Credentials where
  mail_tel : String
  password : String

/-- `reqwest::redirect::Policy` as configured by the crate: `login` selects
`Policy::none()`. -/
inductive RedirectPolicy where
  /-- Automatic redirect following disabled (`Policy::none()`). -/
  | noFollow
  /-- The builder default (follow up to a limit). -/
  | follow
deriving DecidableEq

/-- The single outbound request `login` builds: method, URL, the client's
User-Agent and redirect policy, and the form-encoded body fields. -/
structure Request where
  method : String
  url : String
  userAgent : String
  redirect : RedirectPolicy
  form : List (String × String)

/-- `HashMap::insert` on an association list: replace the value when the key
is present, append the pair otherwise. -/
def hmInsert (k v : String) (m : List (String × String)) : List (String × String) :=
  if m.any (fun p => p.1 == k) then
    m.map (fun p => if p.1 == k then (k, v) else p)
  else
    m ++ [(k, v)]

/-- The request `login` sends: POST to the fixed login URL with the two form
fields `password` and `mail_tel`, from a client built with
`redirect(Policy::none())` and `user_agent("toof-jp/niconico")`. -/
def buildRequest (credentials : Credentials) : Request :=
  { method := "POST"
  , url := "https://account.nicovideo.jp/login/redirector"
  , userAgent := "toof-jp/niconico"
  , redirect := .noFollow
  , form := hmInsert "mail_tel" credentials.mail_tel
      (hmInsert "password" credentials.password []) }

/-- The effectful boundary of `login`: the outcome of
`reqwest::Client::builder().build()` and of sending a request.  Both error
channels carry the external error's display message. -/
structure Transport where
  build : Except String Unit
  send : Request → Except String HeaderMap

/-- `login`: build the client (failure → `ClientError`), send the request
(failure → `NetworkError` with the error's message), and on a received
response delegate to `parse_response_header` on its headers. -/
def login (t : Transport) (credentials : Credentials) : LoginResult :=
  match t.build with
  | .error e => .error (.ClientError e)
  | .ok _ =>
    match t.send (buildRequest credentials) with
    | .error e => .error (.NetworkError e)
    | .ok res => parse_response_header res

/-! ## Helper lemmas about the scanner loop -/

/-- `strFindAux` reports position 0 exactly when the pattern starts the
haystack. -/
theorem strFindAux_zero_iff (pat hay : List Char) :
    strFindAux pat hay = some 0 ↔ pat.isPrefixOf hay = true := by
  cases hay with
  | nil =>
    simp only [strFindAux]
    split <;> simp_all
  | cons c t =>
    simp only [strFindAux]
    split
    · simp_all
    · constructor
      · intro h
        cases hfind : strFindAux pat t <;> simp [hfind] at h
      · intro h
        simp_all

/-- The scanner loop returns the first value whose text carries the marker
at position 0, provided everything before it decodes and does not match. -/
theorem scanSetCookie_first_match (pre post : List HeaderBytes) (v : HeaderBytes) (s : String)
    (hpre : ∀ u ∈ pre, ∃ t, toStr u = some t ∧ strFind t userSessionMarker ≠ some 0)
    (hv : toStr v = some s) (hs : strFind s userSessionMarker = some 0) :
    scanSetCookie (pre ++ v :: post) = .ok ⟨s⟩ := by
  induction pre with
  | nil =>
    simp only [List.nil_append, scanSetCookie, hv]
    rw [if_pos hs]
  | cons u rest ih =>
    obtain ⟨t, ht, hnm⟩ := hpre u (List.mem_cons_self u rest)
    simp only [List.cons_append, scanSetCookie, ht]
    rw [if_neg hnm]
    exact ih (fun w hw => hpre w (List.mem_cons_of_mem u hw))

/-- The scanner loop aborts with `HeaderParseError` when an undecodable value
occurs and no decodable value before it matches. -/
theorem scanSetCookie_parse_error (pre post : List HeaderBytes) (u : HeaderBytes)
    (hu : toStr u = none)
    (hpre : ∀ w ∈ pre, ∀ t, toStr w = some t → strFind t userSessionMarker ≠ some 0) :
    scanSetCookie (pre ++ u :: post) = .error .HeaderParseError := by
  induction pre with
  | nil =>
    simp only [List.nil_append, scanSetCookie, hu]
  | cons w rest ih =>
    cases hw : toStr w with
    | none => simp only [List.cons_append, scanSetCookie, hw]
    | some t =>
      have hnm := hpre w (List.mem_cons_self w rest) t hw
      simp only [List.cons_append, scanSetCookie, hw]
      rw [if_neg hnm]
      exact ih (fun x hx => hpre x (List.mem_cons_of_mem w hx))

/-- The scanner loop exhausts all values and reports `UserSessionNotFound`
when every value decodes to a non-matching text. -/
theorem scanSetCookie_not_found (vs : List HeaderBytes)
    (h : ∀ v ∈ vs, ∃ t, toStr v = some t ∧ strFind t userSessionMarker ≠ some 0) :
    scanSetCookie vs = .error .UserSessionNotFound := by
  induction vs with
  | nil => rfl
  | cons v rest ih =>
    obtain ⟨t, ht, hnm⟩ := h v (List.mem_cons_self v rest)
    simp only [scanSetCookie, ht]
    rw [if_neg hnm]
    exact ih (fun w hw => h w (List.mem_cons_of_mem v hw))

/-- Every token the scanner loop produces starts with the marker. -/
theorem scanSetCookie_ok_marker (vs : List HeaderBytes) (s : UserSession)
    (h : scanSetCookie vs = .ok s) :
    userSessionMarker.data.isPrefixOf s.user_session.data = true := by
  induction vs with
  | nil => simp [scanSetCookie] at h
  | cons v rest ih =>
    cases hv : toStr v with
    | none => simp [scanSetCookie, hv] at h
    | some t =>
      simp only [scanSetCookie, hv] at h
      by_cases hm : strFind t userSessionMarker = some 0
      · rw [if_pos hm] at h
        cases h
        exact (strFindAux_zero_iff userSessionMarker.data t.data).mp hm
      · rw [if_neg hm] at h
        exact ih h

/-! ## Claim theorems -/

/-- Claim C1: for every header collection containing at least one Set-Cookie
value whose decoded text starts with the literal `user_session=user_session_`,
and in which every Set-Cookie value at or before that first match decodes as
text, `parse_response_header` returns success with a token equal to the full
text of that first matching value in header order; when multiple values
match, only the earliest is returned, regardless of how many others also
match.  (The values before the first match decode and do not match; the
values after it, `post`, are arbitrary.) -/
theorem parse_response_header_first_match (h : HeaderMap)
    (pre post : List HeaderBytes) (v : HeaderBytes) (s : String)
    (hsplit : h.get_all setCookieName = pre ++ v :: post)
    (hpre : ∀ u ∈ pre, ∃ t, toStr u = some t ∧ strFind t userSessionMarker ≠ some 0)
    (hv : toStr v = some s)
    (hs : strFind s userSessionMarker = some 0) :
    parse_response_header h = .ok ⟨s⟩ := by
  unfold parse_response_header
  rw [hsplit]
  exact scanSetCookie_first_match pre post v s hpre hv hs

/-- Witness for C1: two further matching values follow the first one; the
earliest is returned. -/
theorem parse_response_header_first_match_witness :
    parse_response_header
        ⟨[("Set-Cookie", strBytes "other=x"),
          ("Content-Type", strBytes "text/html"),
          ("Set-Cookie", strBytes "user_session=user_session_abc"),
          ("set-cookie", strBytes "user_session=user_session_zzz"),
          ("Set-Cookie", strBytes "user_session=user_session_www")]⟩ =
      .ok ⟨"user_session=user_session_abc"⟩ :=
  parse_response_header_first_match _
    [strBytes "other=x"]
    [strBytes "user_session=user_session_zzz", strBytes "user_session=user_session_www"]
    (strBytes "user_session=user_session_abc") "user_session=user_session_abc"
    (by decide)
    (by
      intro u hu
      rw [List.mem_singleton] at hu
      subst hu
      exact ⟨"other=x", by decide, by decide⟩)
    (by decide) (by decide)

/-- Claim C2: when a Set-Cookie value that is not decodable as text occurs
before any matching value (every decodable value before it does not match),
`parse_response_header` returns `HeaderParseError` and does not skip it,
even if a later valid matching value exists. -/
theorem parse_response_header_malformed_aborts (h : HeaderMap)
    (pre post : List HeaderBytes) (u : HeaderBytes)
    (hsplit : h.get_all setCookieName = pre ++ u :: post)
    (hu : toStr u = none)
    (hpre : ∀ w ∈ pre, ∀ t, toStr w = some t → strFind t userSessionMarker ≠ some 0) :
    parse_response_header h = .error .HeaderParseError := by
  unfold parse_response_header
  rw [hsplit]
  exact scanSetCookie_parse_error pre post u hu hpre

/-- Witness for C2: the byte `0xFF` is not decodable; a valid matching value
follows it, yet the scan aborts with `HeaderParseError`. -/
theorem parse_response_header_malformed_aborts_witness :
    parse_response_header
        ⟨[("Set-Cookie", strBytes "other=x"),
          ("Set-Cookie", [255]),
          ("Set-Cookie", strBytes "user_session=user_session_abc")]⟩ =
      .error .HeaderParseError :=
  parse_response_header_malformed_aborts _
    [strBytes "other=x"] [strBytes "user_session=user_session_abc"] [255]
    (by decide) (by decide)
    (by
      intro w hw t ht
      rw [List.mem_singleton] at hw
      subst hw
      rw [show toStr (strBytes "other=x") = some "other=x" from by decide] at ht
      cases ht
      decide)

/-- Claim C3: when every Set-Cookie value decodes as text and none starts
with the marker — including the empty collection and collections with
unrelated cookie names — `parse_response_header` returns
`UserSessionNotFound`. -/
theorem parse_response_header_not_found (h : HeaderMap)
    (hall : ∀ v ∈ h.get_all setCookieName,
      ∃ t, toStr v = some t ∧ strFind t userSessionMarker ≠ some 0) :
    parse_response_header h = .error .UserSessionNotFound := by
  unfold parse_response_header
  exact scanSetCookie_not_found _ hall

/-- Witness for C3: an unrelated cookie name and a non-Set-Cookie header. -/
theorem parse_response_header_not_found_witness :
    parse_response_header
        ⟨[("Set-Cookie", strBytes "different_cookie=value"),
          ("Content-Type", strBytes "text/html")]⟩ =
      .error .UserSessionNotFound :=
  parse_response_header_not_found _
    (by
      intro v hv
      rw [show HeaderMap.get_all
            ⟨[("Set-Cookie", strBytes "different_cookie=value"),
              ("Content-Type", strBytes "text/html")]⟩ setCookieName =
          [strBytes "different_cookie=value"] from by decide, List.mem_singleton] at hv
      subst hv
      exact ⟨"different_cookie=value", by decide, by decide⟩)

/-- Claim C4: whenever `parse_response_header` returns success, the produced
session token begins with the exact literal `user_session=user_session_`. -/
theorem parse_response_header_token_marked (h : HeaderMap) (s : UserSession)
    (hok : parse_response_header h = .ok s) :
    userSessionMarker.data.isPrefixOf s.user_session.data = true :=
  scanSetCookie_ok_marker _ s hok

/-- Witness for C4: the token extracted from a concrete response starts with
the marker. -/
theorem parse_response_header_token_marked_witness :
    userSessionMarker.data.isPrefixOf
        (UserSession.mk "user_session=user_session_123").user_session.data = true :=
  parse_response_header_token_marked
    ⟨[("Set-Cookie", strBytes "user_session=user_session_123")]⟩
    ⟨"user_session=user_session_123"⟩ (by decide)

/-- Claim C5: whenever the client builds and the send succeeds with a
response, `login` passes the full response header collection to
`parse_response_header` and returns its result unchanged. -/
theorem login_delegates_to_scanner (t : Transport) (c : Credentials) (res : HeaderMap)
    (hb : t.build = .ok ())
    (hs : t.send (buildRequest c) = .ok res) :
    login t c = parse_response_header res := by
  unfold login
  rw [hb, hs]

/-- Witness for C5: a transport that always answers with a fixed response. -/
theorem login_delegates_to_scanner_witness :
    login ⟨.ok (), fun _ => .ok ⟨[("Set-Cookie", strBytes "user_session=user_session_123")]⟩⟩
        ⟨"user@example.com", "password123"⟩ =
      parse_response_header ⟨[("Set-Cookie", strBytes "user_session=user_session_123")]⟩ :=
  login_delegates_to_scanner _ _ _ rfl rfl

/-- Claim C6: whenever the send fails at the transport layer, `login`
returns `NetworkError` carrying the underlying transport error's message,
and that message is non-empty (the transport's display message is never
empty, which the hypothesis records). -/
theorem login_network_error (t : Transport) (c : Credentials) (msg : String)
    (hb : t.build = .ok ())
    (hs : t.send (buildRequest c) = .error msg)
    (hne : msg ≠ "") :
    login t c = .error (.NetworkError msg) ∧ msg ≠ "" := by
  refine ⟨?_, hne⟩
  unfold login
  rw [hb, hs]

/-- Witness for C6: a transport whose send fails with a connection error. -/
theorem login_network_error_witness :
    login ⟨.ok (), fun _ => .error "error sending request: connection refused"⟩
        ⟨"user@example.com", "password123"⟩ =
      .error (.NetworkError "error sending request: connection refused") ∧
    "error sending request: connection refused" ≠ "" :=
  login_network_error _ _ _ rfl rfl (by decide)

/-- Claim C7: the single outbound request built by `login` is a POST to
`https://account.nicovideo.jp/login/redirector` whose form body contains
exactly the two fields `password` and `mail_tel` (no others), sent by a
client with redirect following disabled and the fixed constant User-Agent
`toof-jp/niconico`. -/
theorem login_request_shape (c : Credentials) :
    (buildRequest c).method = "POST" ∧
    (buildRequest c).url = "https://account.nicovideo.jp/login/redirector" ∧
    (buildRequest c).userAgent = "toof-jp/niconico" ∧
    (buildRequest c).redirect = RedirectPolicy.noFollow ∧
    ((buildRequest c).form.map Prod.fst).Perm ["password", "mail_tel"] := by
  refine ⟨rfl, rfl, rfl, rfl, ?_⟩
  simp [buildRequest, hmInsert]

/-- Claim C8: the scanner is deterministic: any two invocations on the same
header collection return the same result (two-run formulation; the embedding
of `parse_response_header` is a pure function of the read-only collection). -/
theorem parse_response_header_two_run (h₁ h₂ : HeaderMap) (heq : h₁ = h₂) :
    parse_response_header h₁ = parse_response_header h₂ := by
  rw [heq]

/-- Witness for C8: two runs on the same concrete collection agree. -/
theorem parse_response_header_two_run_witness :
    parse_response_header ⟨[("Set-Cookie", strBytes "user_session=user_session_123")]⟩ =
      parse_response_header ⟨[("Set-Cookie", strBytes "user_session=user_session_123")]⟩ :=
  parse_response_header_two_run _ _ rfl

/-- Claim C9: the scanner's result depends only on the ordered sequence of
Set-Cookie values: collections with identical Set-Cookie sequences give the
same result, whatever values (including undecodable ones) appear under other
header names. -/
theorem parse_response_header_set_cookie_only (h₁ h₂ : HeaderMap)
    (heq : h₁.get_all setCookieName = h₂.get_all setCookieName) :
    parse_response_header h₁ = parse_response_header h₂ := by
  unfold parse_response_header
  rw [heq]

/-- Witness for C9: adding an undecodable value under another header name
and a further unrelated header does not change the result. -/
theorem parse_response_header_set_cookie_only_witness :
    parse_response_header ⟨[("Set-Cookie", strBytes "user_session=user_session_abc")]⟩ =
      parse_response_header
        ⟨[("X-Raw", [255]),
          ("set-cookie", strBytes "user_session=user_session_abc"),
          ("Server", strBytes "nginx")]⟩ :=
  parse_response_header_set_cookie_only _ _ (by decide)

/-- Claim C10: when the first matching Set-Cookie value occurs strictly
before any undecodable Set-Cookie value, `parse_response_header` returns
success with that matching value: malformed entries positioned after the
first match are never examined and never cause a parse-error failure. -/
theorem parse_response_header_malformed_after_match (h : HeaderMap)
    (pre post : List HeaderBytes) (v : HeaderBytes) (s : String)
    (hsplit : h.get_all setCookieName = pre ++ v :: post)
    (hpre : ∀ u ∈ pre, ∃ t, toStr u = some t ∧ strFind t userSessionMarker ≠ some 0)
    (hv : toStr v = some s)
    (hs : strFind s userSessionMarker = some 0)
    (_hpost : ∃ u ∈ post, toStr u = none) :
    parse_response_header h = .ok ⟨s⟩ := by
  unfold parse_response_header
  rw [hsplit]
  exact scanSetCookie_first_match pre post v s hpre hv hs

/-- Witness for C10: an undecodable value after the match does not disturb
the success. -/
theorem parse_response_header_malformed_after_match_witness :
    parse_response_header
        ⟨[("Set-Cookie", strBytes "user_session=user_session_abc"),
          ("Set-Cookie", [255])]⟩ =
      .ok ⟨"user_session=user_session_abc"⟩ :=
  parse_response_header_malformed_after_match _
    [] [[255]] (strBytes "user_session=user_session_abc") "user_session=user_session_abc"
    (by decide)
    (by intro u hu; exact absurd hu (List.not_mem_nil u))
    (by decide) (by decide)
    ⟨[255], List.mem_singleton.mpr rfl, by decide⟩

end Niconico
